import Mathlib

/-!
# Verification of the citro3d lighting core (light.h / lightlut.h)

A shallow embedding of the light / light-environment state model and the
LUT sampling engine of citro3d.  Machine floats are modelled as rationals
(`ℚ`); the fixed-point LUT entry encoding is modelled explicitly; bit flags
live in `Nat` with explicit masks.  Functions whose bodies are declared in
the headers but implemented elsewhere are modelled from the specification
and marked as such in their doc comments.
-/

namespace Citro3D

/-- `BIT(n)` from 3ds types.h: the single-bit mask `2^n`. -/
def BIT (n : Nat) : Nat := 2 ^ n

/-! ## Dirty-flag bit constants (src/include/c3d/light.h, enum at lines 88-98) -/

def C3DF_LightEnv_Dirty    : Nat := BIT 0
def C3DF_LightEnv_MtlDirty : Nat := BIT 1
def C3DF_LightEnv_LCDirty  : Nat := BIT 2

/-- `C3DF_LightEnv_IsCP(n) = BIT(18+(n))`: per-light-slot config dirty bit. -/
def C3DF_LightEnv_IsCP (n : Nat) : Nat := BIT (18 + n)

/-- `C3DF_LightEnv_IsCP_Any = 0xFF<<18`. -/
def C3DF_LightEnv_IsCP_Any : Nat := 0xFF <<< 18

/-- `C3DF_LightEnv_LutDirty(n) = BIT(26+(n))`: per-LUT-slot dirty bit. -/
def C3DF_LightEnv_LutDirty (n : Nat) : Nat := BIT (26 + n)

/-- `C3DF_LightEnv_LutDirtyAll = 0x3F<<26`. -/
def C3DF_LightEnv_LutDirtyAll : Nat := 0x3F <<< 26

/-! ## Per-light flag bit constants (src/include/c3d/light.h, lines 247-258) -/

def C3DF_Light_Enabled  : Nat := BIT 0
def C3DF_Light_Dirty    : Nat := BIT 1
def C3DF_Light_MatDirty : Nat := BIT 2
def C3DF_Light_SPDirty  : Nat := BIT 14
def C3DF_Light_DADirty  : Nat := BIT 15

/-! ## LUT entry fixed-point encoding

The spec's §6 leaves the exact bit packing to the hardware contract and
allows a reimplementation to pick an encoding as long as the round-trip
properties hold.  We use an unsigned 0.12 fixed-point value (round to
nearest, saturating to `[0, 4095]`) together with an integer delta field.
-/

/-- Encode a sampled value into 12-bit fixed point, rounding to nearest and
saturating deterministically as the spec requires for out-of-range values. -/
def lutEncode (v : ℚ) : Nat := min 4095 (Int.toNat ⌊v * 4096 + 1/2⌋)

/-- Decode the 12-bit fixed-point value field back to a rational. -/
def lutDecode (u : Nat) : ℚ := (u : ℚ) / 4096

/-- One encoded table entry: the sampled value and the delta to the next
sample used by the hardware's piecewise-linear interpolation. -/
@[ext] structure LutEntry where
  value : Nat
  delta : Int
  deriving DecidableEq

/-- `C3D_LightLut` (src/include/c3d/lightlut.h lines 9-12): 256 encoded entries. -/
@[ext] structure C3D_LightLut where
  data : Fin 256 → LutEntry

/-- `C3D_LightLutDA` (src/include/c3d/lightlut.h lines 14-18): a base table
plus the `bias`/`scale` pair remapping a distance into the sampling domain. -/
@[ext] structure C3D_LightLutDA where
  lut : C3D_LightLut
  bias : ℚ
  scale : ℚ

/-- Sample abscissa passed to the callback for table index `i`.
Modelled from the spec: unsigned domain samples `x ∈ [0,256)` directly;
signed domain samples `x ∈ [-128,128)` preserving sign, the index being
the two's-complement offset of `x` (indices `128..255` hold `-128..-1`). -/
def sampleX (negative : Bool) (i : Fin 256) : ℚ :=
  if negative ∧ 128 ≤ i.val then (i.val : ℚ) - 256 else (i.val : ℚ)

/-- Modelled from the spec: `LightLut_FromFunc` (declared in
src/include/c3d/lightlut.h line 47, body not in src/) samples `func` at the
256 abscissas of `sampleX`, encodes each sample, and stores the delta to
the next sample, the table being logically circular. -/
def LightLut_FromFunc (func : ℚ → ℚ → ℚ) (param : ℚ) (negative : Bool) :
    C3D_LightLut :=
  { data := fun i =>
      { value := lutEncode (func (sampleX negative i) param)
        delta := (lutEncode (func (sampleX negative (i + 1)) param) : Int) -
                 (lutEncode (func (sampleX negative i) param) : Int) } }

/-- Modelled from the spec: `LightLut_FromArray` (declared in
src/include/c3d/lightlut.h line 38, body not in src/) consumes exactly 256
raw values, storing each verbatim up to fixed-point quantization, with a
zero delta field and no domain mapping. -/
def LightLut_FromArray (data : Fin 256 → ℚ) : C3D_LightLut :=
  { data := fun i => { value := lutEncode (data i), delta := 0 } }

/-- Modelled from the spec: `LightLutDA_Create` (declared in
src/include/c3d/lightlut.h line 58, body not in src/) computes
`scale = 1/(to-from)` and `bias = -from*scale`, and populates the table via
FromFunction semantics through a single-argument wrapper over `func` that
maps index 0 to distance `from` and index 255 to distance `to`. -/
def LightLutDA_Create (func : ℚ → ℚ → ℚ → ℚ) (fromv tov arg0 arg1 : ℚ) :
    C3D_LightLutDA :=
  { lut := LightLut_FromFunc
      (fun x _ => func (fromv + (tov - fromv) * x / 255) arg0 arg1) 0 false
    scale := 1 / (tov - fromv)
    bias := -fromv * (1 / (tov - fromv)) }

/-- The distance-mapped table index of the spec's §3: `index_input =
distance*scale + bias`, scaled onto the 256 entries and clamped. -/
def distMapIndex (l : C3D_LightLutDA) (dist : ℚ) : Fin 256 :=
  ⟨min (Int.toNat ⌊255 * (dist * l.scale + l.bias) + 1/2⌋) 255, by omega⟩

/-- `quadratic_dist_attn` (src/include/c3d/lightlut.h lines 23-26):
`1/(1 + linear*dist + quad*dist*dist)`; the division has no defined result
when the denominator is zero, modelled as `none`. -/
def quadratic_dist_attn (dist linear quad : ℚ) : Option ℚ :=
  if 1 + linear * dist + quad * dist * dist = 0 then none
  else some (1 / (1 + linear * dist + quad * dist * dist))

/-- `spot_step` (src/include/c3d/lightlut.h lines 28-31). -/
def spot_step (angle cutoff : ℚ) : ℚ :=
  if cutoff ≤ angle then 1 else 0

/-! ## Light-environment and light state (src/include/c3d/light.h) -/

/-- `C3D_Material` (light.h lines 55-63). -/
structure C3D_Material where
  ambient : ℚ × ℚ × ℚ
  diffuse : ℚ × ℚ × ℚ
  specular0 : ℚ × ℚ × ℚ
  specular1 : ℚ × ℚ × ℚ
  emission : ℚ × ℚ × ℚ

/-- `C3D_LightLutInputConf` (light.h lines 74-77). -/
structure C3D_LightLutInputConf where
  abs : Nat
  select : Nat
  scale : Nat

/-- `C3D_LightEnvConf` (light.h lines 79-86). -/
structure C3D_LightEnvConf where
  ambient : Nat
  numLights : Nat
  config : Nat × Nat
  lutInput : C3D_LightLutInputConf
  permutation : Nat

/-- `C3D_LightMatConf` (light.h lines 232-235). -/
structure C3D_LightMatConf where
  specular0 : Nat
  specular1 : Nat
  diffuse : Nat
  ambient : Nat

/-- `C3D_LightConf` (light.h lines 237-245). -/
structure C3D_LightConf where
  material : C3D_LightMatConf
  position : Nat × Nat × Nat
  spotDir : Nat × Nat × Nat
  config : Nat
  distAttnBias : Nat
  distAttnScale : Nat

/-- `C3D_LightEnv_t` (light.h lines 100-108).  Pointers (`C3D_Light*`,
`C3D_LightLut*`) are modelled as optional abstract addresses; only slot
indices `0..7` (resp. `0..5`) of the slot functions are meaningful. -/
structure C3D_LightEnv where
  flags : Nat
  luts : Nat → Option Nat
  ambient : ℚ × ℚ × ℚ
  lights : Nat → Option Nat
  conf : C3D_LightEnvConf
  material : C3D_Material

/-- `C3D_Light_t` (light.h lines 260-270); the `parent` back-reference is
an optional abstract environment address. -/
structure C3D_Light where
  flags : Nat
  id : Nat
  parent : Option Nat
  lut_SP : Option Nat
  lut_DA : Option Nat
  ambient : ℚ × ℚ × ℚ
  diffuse : ℚ × ℚ × ℚ
  specular0 : ℚ × ℚ × ℚ
  specular1 : ℚ × ℚ × ℚ
  conf : C3D_LightConf

def defaultLightLutInputConf : C3D_LightLutInputConf := ⟨0, 0, 0⟩

def defaultLightEnvConf : C3D_LightEnvConf :=
  ⟨0, 0, (0, 0), defaultLightLutInputConf, 0⟩

def defaultMaterial : C3D_Material :=
  ⟨(0, 0, 0), (0, 0, 0), (0, 0, 0), (0, 0, 0), (0, 0, 0)⟩

def defaultLightConf : C3D_LightConf :=
  ⟨⟨0, 0, 0, 0⟩, (0, 0, 0), (0, 0, 0), 0, 0, 0⟩

/-- Modelled from the spec: `C3D_LightEnvInit` (declared in light.h line
119, body not in src/) resets all fields to defaults — zero ambient, no
lights, no LUTs, default config — and clears all dirty bits. -/
def C3D_LightEnvInit : C3D_LightEnv :=
  { flags := 0
    luts := fun _ => none
    ambient := (0, 0, 0)
    lights := fun _ => none
    conf := defaultLightEnvConf
    material := defaultMaterial }

/-- The lowest free light slot of an environment's 8 slots, mirroring the
linear search of the C loop. -/
def findFreeSlot (L : Nat → Option Nat) : Option Nat :=
  if L 0 = none then some 0
  else if L 1 = none then some 1
  else if L 2 = none then some 2
  else if L 3 = none then some 3
  else if L 4 = none then some 4
  else if L 5 = none then some 5
  else if L 6 = none then some 6
  else if L 7 = none then some 7
  else none

/-- Number of occupied light slots of an environment. -/
def lightCount (env : C3D_LightEnv) : Nat :=
  (List.range 8).countP fun i => (env.lights i).isSome

/-- Modelled from the spec: `C3D_LightInit` (declared in light.h line 280,
body not in src/) assigns the light the lowest free slot index of `env`
(0-7), failing with a negative result and no mutation when all 8 slots are
occupied; on success it stores the back-reference to `env`, marks the light
enabled by default, raises the per-light dirty bit in the parent and the
light's own general-dirty bit.  The light and environment are passed and
returned by value together with their abstract addresses. -/
def C3D_LightInit (lightAddr : Nat) (light : C3D_Light) (envAddr : Nat)
    (env : C3D_LightEnv) : Int × C3D_Light × C3D_LightEnv :=
  match findFreeSlot env.lights with
  | none => (-1, light, env)
  | some i =>
    ((i : Int),
     { light with
        id := i
        parent := some envAddr
        flags := C3DF_Light_Enabled ||| C3DF_Light_Dirty },
     { env with
        lights := Function.update env.lights i (some lightAddr)
        flags := env.flags ||| C3DF_LightEnv_IsCP i })

/-- Modelled from the spec: `C3D_LightEnable` (declared in light.h line
289, body not in src/) sets or clears the light's enable flag and raises
the parent environment's per-light-slot dirty bit; the parent's state is
passed explicitly in place of the back-pointer dereference. -/
def C3D_LightEnable (light : C3D_Light) (env : C3D_LightEnv)
    (enable : Bool) : C3D_Light × C3D_LightEnv :=
  ({ light with
      flags := if enable then light.flags ||| C3DF_Light_Enabled
               else light.flags &&& (0xFFFF ^^^ C3DF_Light_Enabled) },
   { env with flags := env.flags ||| C3DF_LightEnv_IsCP light.id })

/-- Modelled from the spec: `C3D_LightDiffuse` (declared in light.h line
323, body not in src/) stores the diffuse color, raises the light's
material-contribution dirty bit and propagates the light-material-changed
signal to the parent environment. -/
def C3D_LightDiffuse (light : C3D_Light) (env : C3D_LightEnv)
    (r g b : ℚ) : C3D_Light × C3D_LightEnv :=
  ({ light with
      diffuse := (r, g, b)
      flags := light.flags ||| C3DF_Light_MatDirty },
   { env with flags := env.flags ||| C3DF_LightEnv_LCDirty })

/-- Modelled from the spec: `C3D_LightSpecular0` (declared in light.h line
332, body not in src/), as `C3D_LightDiffuse` for the specular0 color. -/
def C3D_LightSpecular0 (light : C3D_Light) (env : C3D_LightEnv)
    (r g b : ℚ) : C3D_Light × C3D_LightEnv :=
  ({ light with
      specular0 := (r, g, b)
      flags := light.flags ||| C3DF_Light_MatDirty },
   { env with flags := env.flags ||| C3DF_LightEnv_LCDirty })

/-- Modelled from the spec: `C3D_LightSpecular1` (declared in light.h line
341, body not in src/), as `C3D_LightDiffuse` for the specular1 color. -/
def C3D_LightSpecular1 (light : C3D_Light) (env : C3D_LightEnv)
    (r g b : ℚ) : C3D_Light × C3D_LightEnv :=
  ({ light with
      specular1 := (r, g, b)
      flags := light.flags ||| C3DF_Light_MatDirty },
   { env with flags := env.flags ||| C3DF_LightEnv_LCDirty })

/-- `C3D_LightColor` (light.h lines 404-409, defined in the header):
sequences `C3D_LightDiffuse`, `C3D_LightSpecular0`, `C3D_LightSpecular1`
with the same RGB triple. -/
def C3D_LightColor (light : C3D_Light) (env : C3D_LightEnv)
    (r g b : ℚ) : C3D_Light × C3D_LightEnv :=
  let p1 := C3D_LightDiffuse light env r g b
  let p2 := C3D_LightSpecular0 p1.1 p1.2 r g b
  C3D_LightSpecular1 p2.1 p2.2 r g b

/-- Thread a list of color setters through a light/environment pair with a
fixed RGB triple, in list order. -/
def runSetters
    (setters : List (C3D_Light → C3D_LightEnv → ℚ → ℚ → ℚ →
      C3D_Light × C3D_LightEnv))
    (st : C3D_Light × C3D_LightEnv) (r g b : ℚ) :
    C3D_Light × C3D_LightEnv :=
  setters.foldl (fun acc s => s acc.1 acc.2 r g b) st

/-! ## Concrete sample states used by the witnesses -/

/-- A concrete light with all fields zeroed. -/
def sampleLight : C3D_Light :=
  ⟨0, 0, none, none, none, (0, 0, 0), (0, 0, 0), (0, 0, 0), (0, 0, 0),
   defaultLightConf⟩

/-- A concrete environment with every light slot occupied. -/
def sampleFullEnv : C3D_LightEnv :=
  { C3D_LightEnvInit with lights := fun _ => some 1 }

/-! ## Helper lemmas on bit masks -/

theorem nat_and_or_right (a b c : Nat) :
    (a ||| b) &&& c = (a &&& c) ||| (b &&& c) := by
  apply Nat.eq_of_testBit_eq
  intro i
  simp only [Nat.testBit_and, Nat.testBit_or]
  cases a.testBit i <;> cases b.testBit i <;> cases c.testBit i <;> rfl

/-- Raising bits of a mask disjoint from `o` does not change the `o` bits. -/
theorem or_and_eq_of_disjoint (f m o : Nat) (h : m &&& o = 0) :
    (f ||| m) &&& o = f &&& o := by
  rw [nat_and_or_right, h, Nat.or_zero]

/-- Clearing (via 32-bit complement) bits of a mask disjoint from `o` does
not change the `o` bits, provided `o` fits in 32 bits. -/
theorem clear_and_eq_of_disjoint (f m o : Nat) (h : m &&& o = 0)
    (ho : o < 2 ^ 32) :
    (f &&& (0xFFFFFFFF ^^^ m)) &&& o = f &&& o := by
  apply Nat.eq_of_testBit_eq
  intro i
  have hmo : ¬(m.testBit i = true ∧ o.testBit i = true) := by
    intro ⟨h1, h2⟩
    have := congrArg (fun x => x.testBit i) h
    simp only [Nat.testBit_and, h1, h2, Nat.zero_testBit, Bool.and_true] at this
    exact Bool.noConfusion this
  by_cases hi : i < 32
  · have hmask : (0xFFFFFFFF : Nat).testBit i = true := by
      interval_cases i <;> rfl
    simp only [Nat.testBit_and, Nat.testBit_xor, hmask]
    cases hm : m.testBit i
    · simp
    · cases ho2 : o.testBit i
      · simp
      · exact absurd ⟨hm, ho2⟩ hmo
  · have ho2 : o.testBit i = false := by
      apply Nat.testBit_lt_two_pow
      exact lt_of_lt_of_le ho (Nat.pow_le_pow_right (by norm_num) (by omega))
    simp [Nat.testBit_and, ho2]

/-! ## Theorems for the claims -/

/-- C1: after `C3D_LightEnvInit`, every dirty flag of the environment is
clear — none of `C3DF_LightEnv_Dirty`, `C3DF_LightEnv_MtlDirty`,
`C3DF_LightEnv_LCDirty`, any per-light `C3DF_LightEnv_IsCP(n)` bit
(n in 0..7) or `C3DF_LightEnv_LutDirty(n)` bit (n in 0..5) is set — and
all fields are reset to defaults: zero ambient, no lights attached, all
6 LUT slots null. -/
theorem lightEnvInit_all_clear :
    C3D_LightEnvInit.flags &&&
      (C3DF_LightEnv_Dirty ||| C3DF_LightEnv_MtlDirty |||
       C3DF_LightEnv_LCDirty ||| C3DF_LightEnv_IsCP_Any |||
       C3DF_LightEnv_LutDirtyAll) = 0 ∧
    (∀ n : Fin 8, C3D_LightEnvInit.flags &&& C3DF_LightEnv_IsCP n.val = 0) ∧
    (∀ n : Fin 6, C3D_LightEnvInit.flags &&& C3DF_LightEnv_LutDirty n.val = 0) ∧
    C3D_LightEnvInit.ambient = (0, 0, 0) ∧
    (∀ i, C3D_LightEnvInit.lights i = none) ∧
    (∀ i, C3D_LightEnvInit.luts i = none) ∧
    C3D_LightEnvInit.conf = defaultLightEnvConf ∧
    C3D_LightEnvInit.material = defaultMaterial := by
  refine ⟨rfl, fun _ => Nat.zero_and _, fun _ => Nat.zero_and _, rfl,
    fun _ => rfl, fun _ => rfl, rfl, rfl⟩

/-- C9: the dirty-flag bit ranges of the environment's flags word are
pairwise disjoint — the global/material/light-color flags occupy bits 0-2,
the 8 per-light-slot bits `C3DF_LightEnv_IsCP(n)` occupy bits 18-25, the 6
per-LUT-slot bits `C3DF_LightEnv_LutDirty(n)` occupy bits 26-31 — so
raising or clearing the bits of one concern leaves every other concern's
bits unchanged. -/
theorem lightEnv_dirty_ranges_disjoint :
    (C3DF_LightEnv_Dirty = 2 ^ 0 ∧ C3DF_LightEnv_MtlDirty = 2 ^ 1 ∧
     C3DF_LightEnv_LCDirty = 2 ^ 2) ∧
    (∀ n : Fin 8, C3DF_LightEnv_IsCP n.val = 2 ^ (18 + n.val)) ∧
    (∀ n : Fin 6, C3DF_LightEnv_LutDirty n.val = 2 ^ (26 + n.val)) ∧
    ((C3DF_LightEnv_Dirty ||| C3DF_LightEnv_MtlDirty ||| C3DF_LightEnv_LCDirty)
       &&& C3DF_LightEnv_IsCP_Any = 0) ∧
    ((C3DF_LightEnv_Dirty ||| C3DF_LightEnv_MtlDirty ||| C3DF_LightEnv_LCDirty)
       &&& C3DF_LightEnv_LutDirtyAll = 0) ∧
    (C3DF_LightEnv_IsCP_Any &&& C3DF_LightEnv_LutDirtyAll = 0) ∧
    (∀ n : Fin 8, C3DF_LightEnv_IsCP n.val &&& C3DF_LightEnv_IsCP_Any =
       C3DF_LightEnv_IsCP n.val ∧
     C3DF_LightEnv_IsCP n.val &&&
       (C3DF_LightEnv_Dirty ||| C3DF_LightEnv_MtlDirty |||
        C3DF_LightEnv_LCDirty ||| C3DF_LightEnv_LutDirtyAll) = 0) ∧
    (∀ n : Fin 6, C3DF_LightEnv_LutDirty n.val &&& C3DF_LightEnv_LutDirtyAll =
       C3DF_LightEnv_LutDirty n.val ∧
     C3DF_LightEnv_LutDirty n.val &&&
       (C3DF_LightEnv_Dirty ||| C3DF_LightEnv_MtlDirty |||
        C3DF_LightEnv_LCDirty ||| C3DF_LightEnv_IsCP_Any) = 0) ∧
    (∀ f m o : Nat, m &&& o = 0 → o < 2 ^ 32 →
       (f ||| m) &&& o = f &&& o ∧
       (f &&& (0xFFFFFFFF ^^^ m)) &&& o = f &&& o) := by
  refine ⟨⟨rfl, rfl, rfl⟩, fun n => rfl, fun n => rfl, by decide, by decide,
    by decide, fun n => ?_, fun n => ?_,
    fun f m o h ho => ⟨or_and_eq_of_disjoint f m o h,
      clear_and_eq_of_disjoint f m o h ho⟩⟩
  · fin_cases n <;> exact ⟨by decide, by decide⟩
  · fin_cases n <;> exact ⟨by decide, by decide⟩

/-- C9 witness: the quantified preservation part at concrete values. -/
theorem lightEnv_dirty_ranges_disjoint_witness :
    (C3DF_LightEnv_IsCP 0 &&& C3DF_LightEnv_LutDirtyAll = 0 ∧
     C3DF_LightEnv_LutDirtyAll < 2 ^ 32) ∧
    ((5 ||| C3DF_LightEnv_IsCP 0) &&& C3DF_LightEnv_LutDirtyAll =
       5 &&& C3DF_LightEnv_LutDirtyAll ∧
     (5 &&& (0xFFFFFFFF ^^^ C3DF_LightEnv_IsCP 0)) &&& C3DF_LightEnv_LutDirtyAll =
       5 &&& C3DF_LightEnv_LutDirtyAll) :=
  ⟨⟨by decide, by decide⟩,
   lightEnv_dirty_ranges_disjoint.2.2.2.2.2.2.2.2 5 (C3DF_LightEnv_IsCP 0)
     C3DF_LightEnv_LutDirtyAll (by decide) (by decide)⟩

/-- Raising a single-bit mask makes that bit's masked value nonzero. -/
theorem or_pow_and_pow_ne_zero (f k : Nat) : (f ||| 2 ^ k) &&& 2 ^ k ≠ 0 := by
  intro hcontra
  have := congrArg (fun x => x.testBit k) hcontra
  simp [Nat.testBit_and, Nat.testBit_or, Nat.testBit_two_pow_self] at this

/-! ### Fixed-point quantization and sampling lemmas -/

/-- Round-trip error bound of the 0.12 fixed-point entry encoding. -/
theorem lutDecode_lutEncode_close (v : ℚ) (h0 : 0 ≤ v) (h1 : v ≤ 1) :
    |lutDecode (lutEncode v) - v| ≤ 1 / 4096 := by
  simp only [lutEncode, lutDecode]
  set k : ℤ := ⌊v * 4096 + 1/2⌋ with hk
  have hfl : (k : ℚ) ≤ v * 4096 + 1/2 := Int.floor_le _
  have hfh : v * 4096 + 1/2 < (k : ℚ) + 1 := Int.lt_floor_add_one _
  have hk0 : 0 ≤ k := by
    rw [hk]
    apply Int.le_floor.mpr
    push_cast
    linarith
  have hk4096 : k ≤ 4096 := by
    by_contra hcon
    push_neg at hcon
    have : (4097 : ℚ) ≤ (k : ℚ) := by exact_mod_cast hcon
    linarith
  by_cases hcase : k ≤ 4095
  · have hmin : min 4095 k.toNat = k.toNat := by omega
    rw [hmin]
    have hcast : ((k.toNat : Nat) : ℚ) = (k : ℚ) := by
      exact_mod_cast congrArg (Int.cast : ℤ → ℚ) (Int.toNat_of_nonneg hk0)
    rw [hcast, abs_le]
    constructor <;> linarith
  · have hk' : k = 4096 := by omega
    rw [hk']
    have hmin : min 4095 (Int.toNat 4096) = 4095 := by decide
    rw [hmin]
    have hv : (4096 : ℚ) ≤ v * 4096 + 1/2 := by
      rw [hk'] at hfl
      exact_mod_cast hfl
    rw [abs_le]
    constructor <;> linarith

theorem sampleX_false (i : Fin 256) : sampleX false i = (i.val : ℚ) := by
  simp [sampleX]

theorem sampleX_true_lo (i : Fin 256) (h : i.val < 128) :
    sampleX true i = (i.val : ℚ) := by
  unfold sampleX
  rw [if_neg]
  simp only [not_and]
  intro _
  omega

theorem sampleX_true_hi (i : Fin 256) (h : 128 ≤ i.val) :
    sampleX true i = (i.val : ℚ) - 256 := by
  unfold sampleX
  rw [if_pos ⟨rfl, h⟩]

/-! ### Lemmas about the free-slot search -/

theorem findFreeSlot_none (L : Nat → Option Nat)
    (h : findFreeSlot L = none) : ∀ i, i < 8 → L i ≠ none := by
  unfold findFreeSlot at h
  split_ifs at h with h0 h1 h2 h3 h4 h5 h6 h7 <;> try simp at h
  intro i hi
  interval_cases i <;> assumption

theorem findFreeSlot_some (L : Nat → Option Nat) (i : Nat)
    (h : findFreeSlot L = some i) :
    i < 8 ∧ L i = none ∧ ∀ j, j < i → L j ≠ none := by
  unfold findFreeSlot at h
  split_ifs at h with h0 h1 h2 h3 h4 h5 h6 h7
  all_goals obtain rfl := Option.some.inj h
  · exact ⟨by omega, h0, fun j hj => absurd hj (by omega)⟩
  · exact ⟨by omega, h1, fun j hj => by interval_cases j <;> assumption⟩
  · exact ⟨by omega, h2, fun j hj => by interval_cases j <;> assumption⟩
  · exact ⟨by omega, h3, fun j hj => by interval_cases j <;> assumption⟩
  · exact ⟨by omega, h4, fun j hj => by interval_cases j <;> assumption⟩
  · exact ⟨by omega, h5, fun j hj => by interval_cases j <;> assumption⟩
  · exact ⟨by omega, h6, fun j hj => by interval_cases j <;> assumption⟩
  · exact ⟨by omega, h7, fun j hj => by interval_cases j <;> assumption⟩

/-- C2: `C3D_LightInit` against an environment whose 8 slots are all
occupied returns a negative value and mutates no state: the light and the
whole environment are returned unchanged and the light count stays 8. -/
theorem lightInit_full_env_fails (lightAddr envAddr : Nat)
    (light : C3D_Light) (env : C3D_LightEnv)
    (hfull : ∀ i, i < 8 → (env.lights i).isSome) :
    (C3D_LightInit lightAddr light envAddr env).1 < 0 ∧
    (C3D_LightInit lightAddr light envAddr env).2.1 = light ∧
    (C3D_LightInit lightAddr light envAddr env).2.2 = env ∧
    lightCount (C3D_LightInit lightAddr light envAddr env).2.2 = 8 := by
  have hfs : findFreeSlot env.lights = none := by
    unfold findFreeSlot
    split_ifs with h0 h1 h2 h3 h4 h5 h6 h7
    · exact absurd (hfull 0 (by omega)) (by simp [h0])
    · exact absurd (hfull 1 (by omega)) (by simp [h1])
    · exact absurd (hfull 2 (by omega)) (by simp [h2])
    · exact absurd (hfull 3 (by omega)) (by simp [h3])
    · exact absurd (hfull 4 (by omega)) (by simp [h4])
    · exact absurd (hfull 5 (by omega)) (by simp [h5])
    · exact absurd (hfull 6 (by omega)) (by simp [h6])
    · exact absurd (hfull 7 (by omega)) (by simp [h7])
    · rfl
  have hcount : lightCount env = 8 := by
    unfold lightCount
    rw [List.countP_eq_length.mpr, List.length_range]
    intro a ha
    exact hfull a (List.mem_range.mp ha)
  have heq : C3D_LightInit lightAddr light envAddr env = (-1, light, env) := by
    simp [C3D_LightInit, hfs]
  rw [heq]
  exact ⟨by norm_num, rfl, rfl, hcount⟩

/-- C2 witness: a concrete full environment. -/
theorem lightInit_full_env_fails_witness :
    (∀ i, i < 8 → (sampleFullEnv.lights i).isSome) ∧
    ((C3D_LightInit 2 sampleLight 3 sampleFullEnv).1 < 0 ∧
     (C3D_LightInit 2 sampleLight 3 sampleFullEnv).2.1 = sampleLight ∧
     (C3D_LightInit 2 sampleLight 3 sampleFullEnv).2.2 = sampleFullEnv ∧
     lightCount (C3D_LightInit 2 sampleLight 3 sampleFullEnv).2.2 = 8) :=
  ⟨fun i _ => rfl,
   lightInit_full_env_fails 2 3 sampleLight sampleFullEnv (fun i _ => rfl)⟩

/-- C3: with at least one free slot, `C3D_LightInit` succeeds, returning
the lowest free slot index `n` in 0..7 as the light's id, stores the
back-reference to the environment, marks the light enabled (the
`C3DF_Light_Enabled` bit), raises the per-light dirty bit
`C3DF_LightEnv_IsCP(n)` in the parent and the light's own general-dirty
bit `C3DF_Light_Dirty`. -/
theorem lightInit_success (lightAddr envAddr : Nat) (light : C3D_Light)
    (env : C3D_LightEnv) (hfree : ∃ i, i < 8 ∧ env.lights i = none) :
    ∃ n : Nat, n < 8 ∧ env.lights n = none ∧
      (∀ j, j < n → env.lights j ≠ none) ∧
      (C3D_LightInit lightAddr light envAddr env).1 = (n : Int) ∧
      (C3D_LightInit lightAddr light envAddr env).2.1.id = n ∧
      (C3D_LightInit lightAddr light envAddr env).2.1.parent = some envAddr ∧
      (C3D_LightInit lightAddr light envAddr env).2.1.flags &&&
        C3DF_Light_Enabled ≠ 0 ∧
      (C3D_LightInit lightAddr light envAddr env).2.1.flags &&&
        C3DF_Light_Dirty ≠ 0 ∧
      (C3D_LightInit lightAddr light envAddr env).2.2.flags =
        env.flags ||| C3DF_LightEnv_IsCP n ∧
      (C3D_LightInit lightAddr light envAddr env).2.2.lights n =
        some lightAddr := by
  cases hfs : findFreeSlot env.lights with
  | none =>
    obtain ⟨i, hi, hnone⟩ := hfree
    exact absurd hnone (findFreeSlot_none env.lights hfs i hi)
  | some n =>
    obtain ⟨hn8, hnone, hlow⟩ := findFreeSlot_some env.lights n hfs
    refine ⟨n, hn8, hnone, hlow, ?_⟩
    have heq : C3D_LightInit lightAddr light envAddr env =
        ((n : Int),
         { light with
            id := n
            parent := some envAddr
            flags := C3DF_Light_Enabled ||| C3DF_Light_Dirty },
         { env with
            lights := Function.update env.lights n (some lightAddr)
            flags := env.flags ||| C3DF_LightEnv_IsCP n }) := by
      simp [C3D_LightInit, hfs]
    rw [heq]
    exact ⟨rfl, rfl, rfl,
      show (C3DF_Light_Enabled ||| C3DF_Light_Dirty) &&&
        C3DF_Light_Enabled ≠ 0 by decide,
      show (C3DF_Light_Enabled ||| C3DF_Light_Dirty) &&&
        C3DF_Light_Dirty ≠ 0 by decide,
      rfl, Function.update_same n (some lightAddr) env.lights⟩

/-- C3 witness: attaching a light to a freshly initialized environment. -/
theorem lightInit_success_witness :
    (∃ i, i < 8 ∧ C3D_LightEnvInit.lights i = none) ∧
    (∃ n : Nat, n < 8 ∧ C3D_LightEnvInit.lights n = none ∧
      (∀ j, j < n → C3D_LightEnvInit.lights j ≠ none) ∧
      (C3D_LightInit 2 sampleLight 3 C3D_LightEnvInit).1 = (n : Int) ∧
      (C3D_LightInit 2 sampleLight 3 C3D_LightEnvInit).2.1.id = n ∧
      (C3D_LightInit 2 sampleLight 3 C3D_LightEnvInit).2.1.parent = some 3 ∧
      (C3D_LightInit 2 sampleLight 3 C3D_LightEnvInit).2.1.flags &&&
        C3DF_Light_Enabled ≠ 0 ∧
      (C3D_LightInit 2 sampleLight 3 C3D_LightEnvInit).2.1.flags &&&
        C3DF_Light_Dirty ≠ 0 ∧
      (C3D_LightInit 2 sampleLight 3 C3D_LightEnvInit).2.2.flags =
        C3D_LightEnvInit.flags ||| C3DF_LightEnv_IsCP n ∧
      (C3D_LightInit 2 sampleLight 3 C3D_LightEnvInit).2.2.lights n =
        some 2) :=
  ⟨⟨0, by omega, rfl⟩,
   lightInit_success 2 3 sampleLight C3D_LightEnvInit ⟨0, by omega, rfl⟩⟩

/-- C7: `C3D_LightEnable` on a light attached at slot `n` sets the light's
enable flag to the given boolean and raises the parent environment's
per-light-slot dirty bit `C3DF_LightEnv_IsCP(n)`. -/
theorem lightEnable_spec (light : C3D_Light) (env : C3D_LightEnv)
    (b : Bool) (n : Nat) (hid : light.id = n) (hn : n < 8) :
    (b = true →
      (C3D_LightEnable light env b).1.flags &&& C3DF_Light_Enabled ≠ 0) ∧
    (b = false →
      (C3D_LightEnable light env b).1.flags &&& C3DF_Light_Enabled = 0) ∧
    (C3D_LightEnable light env b).2.flags =
      env.flags ||| C3DF_LightEnv_IsCP n ∧
    (C3D_LightEnable light env b).2.flags &&& C3DF_LightEnv_IsCP n ≠ 0 := by
  subst hid
  refine ⟨?_, ?_, rfl, ?_⟩
  · rintro rfl
    show (light.flags ||| C3DF_Light_Enabled) &&& C3DF_Light_Enabled ≠ 0
    exact or_pow_and_pow_ne_zero light.flags 0
  · rintro rfl
    show (light.flags &&& (0xFFFF ^^^ C3DF_Light_Enabled)) &&&
      C3DF_Light_Enabled = 0
    rw [Nat.and_assoc,
      show (0xFFFF ^^^ C3DF_Light_Enabled) &&& C3DF_Light_Enabled = 0 from
        by decide, Nat.and_zero]
  · show (env.flags ||| C3DF_LightEnv_IsCP light.id) &&&
      C3DF_LightEnv_IsCP light.id ≠ 0
    exact or_pow_and_pow_ne_zero env.flags (18 + light.id)

/-- C7 witness: enabling the sample light at slot 0. -/
theorem lightEnable_spec_witness :
    (sampleLight.id = 0 ∧ 0 < 8) ∧
    ((true = true →
       (C3D_LightEnable sampleLight C3D_LightEnvInit true).1.flags &&&
         C3DF_Light_Enabled ≠ 0) ∧
     (true = false →
       (C3D_LightEnable sampleLight C3D_LightEnvInit true).1.flags &&&
         C3DF_Light_Enabled = 0) ∧
     (C3D_LightEnable sampleLight C3D_LightEnvInit true).2.flags =
       C3D_LightEnvInit.flags ||| C3DF_LightEnv_IsCP 0 ∧
     (C3D_LightEnable sampleLight C3D_LightEnvInit true).2.flags &&&
       C3DF_LightEnv_IsCP 0 ≠ 0) :=
  ⟨⟨rfl, by omega⟩,
   lightEnable_spec sampleLight C3D_LightEnvInit true 0 rfl (by omega)⟩

/-- C8: the composite setter `C3D_LightColor` leaves the light/environment
state exactly as the sequence of `C3D_LightDiffuse`, `C3D_LightSpecular0`,
`C3D_LightSpecular1` with the same RGB triple, in any of the six orders of
the three individual setters, and the stored diffuse/specular0/specular1
values are the given triple in all cases. -/
theorem lightColor_composite_equiv (light : C3D_Light) (env : C3D_LightEnv)
    (r g b : ℚ) :
    (runSetters [C3D_LightDiffuse, C3D_LightSpecular0, C3D_LightSpecular1]
       (light, env) r g b = C3D_LightColor light env r g b) ∧
    (runSetters [C3D_LightDiffuse, C3D_LightSpecular1, C3D_LightSpecular0]
       (light, env) r g b = C3D_LightColor light env r g b) ∧
    (runSetters [C3D_LightSpecular0, C3D_LightDiffuse, C3D_LightSpecular1]
       (light, env) r g b = C3D_LightColor light env r g b) ∧
    (runSetters [C3D_LightSpecular0, C3D_LightSpecular1, C3D_LightDiffuse]
       (light, env) r g b = C3D_LightColor light env r g b) ∧
    (runSetters [C3D_LightSpecular1, C3D_LightDiffuse, C3D_LightSpecular0]
       (light, env) r g b = C3D_LightColor light env r g b) ∧
    (runSetters [C3D_LightSpecular1, C3D_LightSpecular0, C3D_LightDiffuse]
       (light, env) r g b = C3D_LightColor light env r g b) ∧
    (C3D_LightColor light env r g b).1.diffuse = (r, g, b) ∧
    (C3D_LightColor light env r g b).1.specular0 = (r, g, b) ∧
    (C3D_LightColor light env r g b).1.specular1 = (r, g, b) :=
  ⟨rfl, rfl, rfl, rfl, rfl, rfl, rfl, rfl, rfl⟩

/-- C10: `quadratic_dist_attn` performs an unguarded division: whenever the
denominator `1 + linear*dist + quad*dist*dist` is nonzero it returns its
reciprocal, but for some inputs (dist=1, linear=-2, quad=1) the denominator
is zero and the function has no defined result. -/
theorem quadratic_dist_attn_spec (dist linear quad : ℚ)
    (h : 1 + linear * dist + quad * dist * dist ≠ 0) :
    quadratic_dist_attn dist linear quad =
      some (1 / (1 + linear * dist + quad * dist * dist)) ∧
    quadratic_dist_attn 1 (-2) 1 = none := by
  constructor
  · simp [quadratic_dist_attn, h]
  · norm_num [quadratic_dist_attn]

/-- C10 witness: the reciprocal case at dist=1, linear=1, quad=1. -/
theorem quadratic_dist_attn_spec_witness :
    (1 + (1 : ℚ) * 1 + 1 * 1 * 1 ≠ 0) ∧
    (quadratic_dist_attn 1 1 1 = some (1 / (1 + (1 : ℚ) * 1 + 1 * 1 * 1)) ∧
     quadratic_dist_attn 1 (-2) 1 = none) :=
  ⟨by norm_num, quadratic_dist_attn_spec 1 1 1 (by norm_num)⟩

/-- C5: `LightLut_FromFunc` samples its callback at 256 evenly spaced
points: with the `negative` flag false the abscissa ranges over `[0,256)`,
with it true over `[-128,128)` preserving sign, every integer point of the
domain is hit, the 256 sample points are distinct, and the same callback
values, parameter and flag produce an identical table. -/
theorem lightLut_FromFunc_sampling (f g : ℚ → ℚ → ℚ) (p q : ℚ) (neg : Bool)
    (hfg : ∀ i : Fin 256, f (sampleX neg i) p = g (sampleX neg i) q) :
    (∀ i : Fin 256, 0 ≤ sampleX false i ∧ sampleX false i < 256) ∧
    (∀ i : Fin 256, -128 ≤ sampleX true i ∧ sampleX true i < 128) ∧
    (∀ k : ℤ, 0 ≤ k → k < 256 → ∃ i : Fin 256, sampleX false i = (k : ℚ)) ∧
    (∀ k : ℤ, -128 ≤ k → k < 128 → ∃ i : Fin 256, sampleX true i = (k : ℚ)) ∧
    (∀ i j : Fin 256, sampleX neg i = sampleX neg j → i = j) ∧
    LightLut_FromFunc f p neg = LightLut_FromFunc g q neg := by
  refine ⟨?_, ?_, ?_, ?_, ?_, ?_⟩
  · intro i
    rw [sampleX_false]
    exact ⟨Nat.cast_nonneg _, by exact_mod_cast i.isLt⟩
  · intro i
    by_cases h : i.val < 128
    · rw [sampleX_true_lo i h]
      constructor
      · exact le_trans (by norm_num) (Nat.cast_nonneg _)
      · exact_mod_cast h
    · push_neg at h
      rw [sampleX_true_hi i h]
      have h1 : (128 : ℚ) ≤ (i.val : ℚ) := by exact_mod_cast h
      have h2 : ((i.val : ℚ)) < 256 := by exact_mod_cast i.isLt
      constructor <;> linarith
  · intro k hk0 hk256
    refine ⟨⟨k.toNat, by omega⟩, ?_⟩
    rw [sampleX_false]
    show ((k.toNat : Nat) : ℚ) = (k : ℚ)
    exact_mod_cast congrArg (Int.cast : ℤ → ℚ) (Int.toNat_of_nonneg hk0)
  · intro k hk0 hk128
    by_cases hk : 0 ≤ k
    · refine ⟨⟨k.toNat, by omega⟩, ?_⟩
      have hlt : (⟨k.toNat, by omega⟩ : Fin 256).val < 128 := by
        show k.toNat < 128
        omega
      rw [sampleX_true_lo _ hlt]
      show ((k.toNat : Nat) : ℚ) = (k : ℚ)
      exact_mod_cast congrArg (Int.cast : ℤ → ℚ) (Int.toNat_of_nonneg hk)
    · push_neg at hk
      refine ⟨⟨(k + 256).toNat, by omega⟩, ?_⟩
      have hge : 128 ≤ (⟨(k + 256).toNat, by omega⟩ : Fin 256).val := by
        show 128 ≤ (k + 256).toNat
        omega
      rw [sampleX_true_hi _ hge]
      show (((k + 256).toNat : Nat) : ℚ) - 256 = (k : ℚ)
      have hcast : (((k + 256).toNat : Nat) : ℚ) = ((k + 256 : ℤ) : ℚ) := by
        exact_mod_cast congrArg (Int.cast : ℤ → ℚ)
          (Int.toNat_of_nonneg (by omega : (0 : ℤ) ≤ k + 256))
      rw [hcast]
      push_cast
      ring
  · intro i j hij
    cases neg
    · rw [sampleX_false, sampleX_false] at hij
      exact Fin.ext (by exact_mod_cast hij)
    · by_cases hi : i.val < 128 <;> by_cases hj : j.val < 128
      · rw [sampleX_true_lo i hi, sampleX_true_lo j hj] at hij
        exact Fin.ext (by exact_mod_cast hij)
      · push_neg at hj
        rw [sampleX_true_lo i hi, sampleX_true_hi j hj] at hij
        exfalso
        have h1 : (0 : ℚ) ≤ (i.val : ℚ) := Nat.cast_nonneg _
        have h2 : (128 : ℚ) ≤ (j.val : ℚ) := by exact_mod_cast hj
        have h3 : ((j.val : ℚ)) < 256 := by exact_mod_cast j.isLt
        linarith
      · push_neg at hi
        rw [sampleX_true_hi i hi, sampleX_true_lo j hj] at hij
        exfalso
        have h1 : (0 : ℚ) ≤ (j.val : ℚ) := Nat.cast_nonneg _
        have h2 : (128 : ℚ) ≤ (i.val : ℚ) := by exact_mod_cast hi
        have h3 : ((i.val : ℚ)) < 256 := by exact_mod_cast i.isLt
        linarith
      · push_neg at hi
        push_neg at hj
        rw [sampleX_true_hi i hi, sampleX_true_hi j hj] at hij
        have : (i.val : ℚ) = (j.val : ℚ) := by linarith
        exact Fin.ext (by exact_mod_cast this)
  · have hv : ∀ j : Fin 256,
        lutEncode (f (sampleX neg j) p) = lutEncode (g (sampleX neg j) q) :=
      fun j => congrArg lutEncode (hfg j)
    apply C3D_LightLut.ext
    funext i
    simp only [LightLut_FromFunc]
    rw [hv i, hv (i + 1)]

/-- C5 witness: the identity callback over the unsigned domain. -/
theorem lightLut_FromFunc_sampling_witness :
    (∀ i : Fin 256,
      (fun x (_ : ℚ) => x) (sampleX false i) 0 =
        (fun x (_ : ℚ) => x) (sampleX false i) 0) ∧
    ((∀ i : Fin 256, 0 ≤ sampleX false i ∧ sampleX false i < 256) ∧
     (∀ i : Fin 256, -128 ≤ sampleX true i ∧ sampleX true i < 128) ∧
     (∀ k : ℤ, 0 ≤ k → k < 256 → ∃ i : Fin 256, sampleX false i = (k : ℚ)) ∧
     (∀ k : ℤ, -128 ≤ k → k < 128 → ∃ i : Fin 256, sampleX true i = (k : ℚ)) ∧
     (∀ i j : Fin 256, sampleX false i = sampleX false j → i = j) ∧
     LightLut_FromFunc (fun x (_ : ℚ) => x) 0 false =
       LightLut_FromFunc (fun x (_ : ℚ) => x) 0 false) :=
  ⟨fun _ => rfl,
   lightLut_FromFunc_sampling (fun x (_ : ℚ) => x) (fun x (_ : ℚ) => x) 0 0
     false (fun _ => rfl)⟩

/-- C6: `LightLut_FromArray` consumes exactly 256 raw values, storing each
verbatim up to fixed-point quantization with a zero delta field and no
domain mapping; decoding the value field of any entry reproduces the input
within the fixed-point quantization error bound. -/
theorem lightLut_FromArray_roundtrip (data : Fin 256 → ℚ) (i : Fin 256)
    (h0 : 0 ≤ data i) (h1 : data i ≤ 1) :
    ((LightLut_FromArray data).data i).value = lutEncode (data i) ∧
    ((LightLut_FromArray data).data i).delta = 0 ∧
    |lutDecode (((LightLut_FromArray data).data i).value) - data i| ≤
      1 / 4096 :=
  ⟨rfl, rfl, lutDecode_lutEncode_close (data i) h0 h1⟩

/-- C6 witness: the constant array 1/2 at entry 0. -/
theorem lightLut_FromArray_roundtrip_witness :
    ((0 : ℚ) ≤ 1/2 ∧ (1/2 : ℚ) ≤ 1) ∧
    (((LightLut_FromArray fun _ => 1/2).data 0).value = lutEncode (1/2) ∧
     ((LightLut_FromArray fun _ => 1/2).data 0).delta = 0 ∧
     |lutDecode (((LightLut_FromArray fun _ => 1/2).data 0).value) -
       (1/2 : ℚ)| ≤ 1 / 4096) :=
  ⟨⟨by norm_num, by norm_num⟩,
   lightLut_FromArray_roundtrip (fun _ => 1/2) 0 (by norm_num) (by norm_num)⟩

/-- C4: `LightLutDA_Create` sets `scale = 1/(to-from)` and
`bias = -from*scale`, so the distance-mapped index of distance `from` is 0
and that of `to` is 255; in particular for from=2, to=10 the table entry at
the distance-mapped index of distance 2 holds the encoding of
`f(2,arg0,arg1)` and that of distance 10 holds the encoding of
`f(10,arg0,arg1)`, each within quantization tolerance after decoding. -/
theorem lightLutDA_create_spec (func : ℚ → ℚ → ℚ → ℚ)
    (fromv tov arg0 arg1 : ℚ) (hlt : fromv < tov) :
    (LightLutDA_Create func fromv tov arg0 arg1).scale = 1 / (tov - fromv) ∧
    (LightLutDA_Create func fromv tov arg0 arg1).bias =
      -fromv * (LightLutDA_Create func fromv tov arg0 arg1).scale ∧
    distMapIndex (LightLutDA_Create func fromv tov arg0 arg1) fromv =
      ⟨0, by norm_num⟩ ∧
    distMapIndex (LightLutDA_Create func fromv tov arg0 arg1) tov =
      ⟨255, by norm_num⟩ ∧
    ((LightLutDA_Create func 2 10 arg0 arg1).lut.data
        (distMapIndex (LightLutDA_Create func 2 10 arg0 arg1) 2)).value =
      lutEncode (func 2 arg0 arg1) ∧
    ((LightLutDA_Create func 2 10 arg0 arg1).lut.data
        (distMapIndex (LightLutDA_Create func 2 10 arg0 arg1) 10)).value =
      lutEncode (func 10 arg0 arg1) ∧
    (0 ≤ func 2 arg0 arg1 → func 2 arg0 arg1 ≤ 1 →
      |lutDecode (((LightLutDA_Create func 2 10 arg0 arg1).lut.data
          (distMapIndex (LightLutDA_Create func 2 10 arg0 arg1) 2)).value) -
        func 2 arg0 arg1| ≤ 1 / 4096) ∧
    (0 ≤ func 10 arg0 arg1 → func 10 arg0 arg1 ≤ 1 →
      |lutDecode (((LightLutDA_Create func 2 10 arg0 arg1).lut.data
          (distMapIndex (LightLutDA_Create func 2 10 arg0 arg1) 10)).value) -
        func 10 arg0 arg1| ≤ 1 / 4096) := by
  have hne : tov - fromv ≠ 0 := sub_ne_zero.mpr (ne_of_gt hlt)
  have hidxFrom :
      distMapIndex (LightLutDA_Create func fromv tov arg0 arg1) fromv =
        ⟨0, by norm_num⟩ := by
    apply Fin.ext
    show min (Int.toNat ⌊255 * (fromv * (1 / (tov - fromv)) +
      -fromv * (1 / (tov - fromv))) + 1/2⌋) 255 = 0
    rw [show 255 * (fromv * (1 / (tov - fromv)) +
      -fromv * (1 / (tov - fromv))) + 1/2 = 1/2 by ring]
    rw [show ⌊(1/2 : ℚ)⌋ = 0 by norm_num [Int.floor_eq_iff]]
    decide
  have hidxTo :
      distMapIndex (LightLutDA_Create func fromv tov arg0 arg1) tov =
        ⟨255, by norm_num⟩ := by
    apply Fin.ext
    show min (Int.toNat ⌊255 * (tov * (1 / (tov - fromv)) +
      -fromv * (1 / (tov - fromv))) + 1/2⌋) 255 = 255
    have hone : tov * (1 / (tov - fromv)) + -fromv * (1 / (tov - fromv)) =
        1 := by
      field_simp
      ring
    rw [hone]
    rw [show (255 : ℚ) * 1 + 1/2 = 511/2 by norm_num]
    rw [show ⌊(511/2 : ℚ)⌋ = 255 by norm_num [Int.floor_eq_iff]]
    decide
  have hidx2 : distMapIndex (LightLutDA_Create func 2 10 arg0 arg1) 2 =
      ⟨0, by norm_num⟩ := by
    apply Fin.ext
    show min (Int.toNat ⌊255 * ((2 : ℚ) * (1 / (10 - 2)) +
      -(2 : ℚ) * (1 / (10 - 2))) + 1/2⌋) 255 = 0
    rw [show 255 * ((2 : ℚ) * (1 / (10 - 2)) +
      -(2 : ℚ) * (1 / (10 - 2))) + 1/2 = 1/2 by norm_num]
    rw [show ⌊(1/2 : ℚ)⌋ = 0 by norm_num [Int.floor_eq_iff]]
    decide
  have hidx10 : distMapIndex (LightLutDA_Create func 2 10 arg0 arg1) 10 =
      ⟨255, by norm_num⟩ := by
    apply Fin.ext
    show min (Int.toNat ⌊255 * ((10 : ℚ) * (1 / (10 - 2)) +
      -(2 : ℚ) * (1 / (10 - 2))) + 1/2⌋) 255 = 255
    rw [show 255 * ((10 : ℚ) * (1 / (10 - 2)) +
      -(2 : ℚ) * (1 / (10 - 2))) + 1/2 = 511/2 by norm_num]
    rw [show ⌊(511/2 : ℚ)⌋ = 255 by norm_num [Int.floor_eq_iff]]
    decide
  have hv0 : ((LightLutDA_Create func 2 10 arg0 arg1).lut.data
      ⟨0, by norm_num⟩).value = lutEncode (func 2 arg0 arg1) := by
    show lutEncode (func (2 + (10 - 2) * sampleX false ⟨0, by norm_num⟩ / 255)
      arg0 arg1) = _
    rw [sampleX_false]
    norm_num
  have hv255 : ((LightLutDA_Create func 2 10 arg0 arg1).lut.data
      ⟨255, by norm_num⟩).value = lutEncode (func 10 arg0 arg1) := by
    show lutEncode (func (2 + (10 - 2) * sampleX false ⟨255, by norm_num⟩ /
      255) arg0 arg1) = _
    rw [sampleX_false]
    norm_num
  refine ⟨rfl, rfl, hidxFrom, hidxTo, ?_, ?_, ?_, ?_⟩
  · rw [hidx2]
    exact hv0
  · rw [hidx10]
    exact hv255
  · intro h0 h1
    rw [hidx2, hv0]
    exact lutDecode_lutEncode_close _ h0 h1
  · intro h0 h1
    rw [hidx10, hv255]
    exact lutDecode_lutEncode_close _ h0 h1

/-- C4 witness: a constant callback with from=2, to=10. -/
theorem lightLutDA_create_spec_witness :
    ((2 : ℚ) < 10) ∧
    ((LightLutDA_Create (fun _ _ _ => 1/2) 2 10 0 0).scale = 1 / (10 - 2) ∧
     (LightLutDA_Create (fun _ _ _ => 1/2) 2 10 0 0).bias =
       -2 * (LightLutDA_Create (fun _ _ _ => 1/2) 2 10 0 0).scale ∧
     distMapIndex (LightLutDA_Create (fun _ _ _ => 1/2) 2 10 0 0) 2 =
       ⟨0, by norm_num⟩ ∧
     distMapIndex (LightLutDA_Create (fun _ _ _ => 1/2) 2 10 0 0) 10 =
       ⟨255, by norm_num⟩ ∧
     ((LightLutDA_Create (fun _ _ _ => 1/2) 2 10 0 0).lut.data
         (distMapIndex (LightLutDA_Create (fun _ _ _ => 1/2) 2 10 0 0)
           2)).value = lutEncode ((1 : ℚ)/2) ∧
     ((LightLutDA_Create (fun _ _ _ => 1/2) 2 10 0 0).lut.data
         (distMapIndex (LightLutDA_Create (fun _ _ _ => 1/2) 2 10 0 0)
           10)).value = lutEncode ((1 : ℚ)/2) ∧
     (0 ≤ (1 : ℚ)/2 → (1 : ℚ)/2 ≤ 1 →
       |lutDecode (((LightLutDA_Create (fun _ _ _ => 1/2) 2 10 0 0).lut.data
           (distMapIndex (LightLutDA_Create (fun _ _ _ => 1/2) 2 10 0 0)
             2)).value) - (1 : ℚ)/2| ≤ 1 / 4096) ∧
     (0 ≤ (1 : ℚ)/2 → (1 : ℚ)/2 ≤ 1 →
       |lutDecode (((LightLutDA_Create (fun _ _ _ => 1/2) 2 10 0 0).lut.data
           (distMapIndex (LightLutDA_Create (fun _ _ _ => 1/2) 2 10 0 0)
             10)).value) - (1 : ℚ)/2| ≤ 1 / 4096)) :=
  ⟨by norm_num,
   lightLutDA_create_spec (fun _ _ _ => 1/2) 2 10 0 0 (by norm_num)⟩

end Citro3D
